import Mathlib

/-!
Verification of the `rhdh-plugin-export-overlays` automation scripts.

The development shallowly embeds the three Python scripts of the repository:

* `.github/scripts/generate-wiki-page.py` — the workspace wiki-page generator;
* `generate_metadata.py` — the metadata boilerplate generator;
* `docs/rhdh1.8_vs_1.9.py` — the support-level diff script.

Pure string/path manipulation is translated character-for-character onto
`List Char` (the `data` field of `String`); filesystem reads and remote
API calls are modelled as explicit oracle inputs (`FileRead`, `RemoteEnv`)
so that every function stays total and executable.
-/

/-! ## Character-list primitives

Faithful embeddings of the Python string operations used by the scripts
(`startswith`, `in`, `replace`, `split`, `lstrip`, `strip`,
`removesuffix`, `os.path.basename`, `os.path.splitext`, `re.sub`).
All of them are structurally recursive so that concrete instances reduce
in the kernel. -/

/-- `listBeginsWith pat l` is Python's `l.startswith(pat)` on character lists. -/
def listBeginsWith : List Char → List Char → Bool
  | [], _ => true
  | _ :: _, [] => false
  | p :: ps, c :: cs => p == c && listBeginsWith ps cs

/-- Python's `s.startswith(pre)`. -/
def strStartsWith (s pre : String) : Bool :=
  listBeginsWith pre.data s.data

/-- `containsSub l pat` is Python's `pat in l` (substring test) on character lists. -/
def containsSub (l pat : List Char) : Bool :=
  match l with
  | [] => listBeginsWith pat []
  | c :: rest => listBeginsWith pat (c :: rest) || containsSub rest pat

/-- Python's `pat in s` for strings. -/
def strContains (s pat : String) : Bool :=
  containsSub s.data pat.data

/-- Fuelled core of Python's `s.replace(pat, rep)`: leftmost non-overlapping
occurrences of `pat` are replaced by `rep`, scanning resumes after each match.
Each step consumes at least one character, so fuel `l.length` is exact.
(Python's special behaviour for an empty pattern is not needed by the
scripts, which only ever replace non-empty literals.) -/
def pyReplaceFuel (pat rep : List Char) : Nat → List Char → List Char
  | _, [] => []
  | 0, l => l
  | fuel + 1, c :: rest =>
    if !pat.isEmpty && listBeginsWith pat (c :: rest) then
      rep ++ pyReplaceFuel pat rep fuel (List.drop pat.length (c :: rest))
    else
      c :: pyReplaceFuel pat rep fuel rest

/-- Python's `s.replace(pat, rep)`. -/
def pyReplace (pat rep s : String) : String :=
  String.mk (pyReplaceFuel pat.data rep.data s.data.length s.data)

/-- Python's `s.split(sep)` with an explicit one-character separator.
Always returns a non-empty list; `''.split(sep) == ['']`. -/
def pySplit (sep : Char) : List Char → List (List Char)
  | [] => [[]]
  | c :: rest =>
    if c == sep then [] :: pySplit sep rest
    else
      match pySplit sep rest with
      | [] => [[c]]
      | g :: gs => (c :: g) :: gs

/-- The field before the first `sep`, i.e. Python's `s.split(sep)[0]`. -/
def firstField (sep : Char) (s : String) : String :=
  String.mk ((pySplit sep s.data).headD [])

/-- Python's `s.strip()` (default whitespace stripping on both ends). -/
def pyStrip (s : String) : String :=
  String.mk (((s.data.dropWhile Char.isWhitespace).reverse.dropWhile Char.isWhitespace).reverse)

/-- Python's `s.removesuffix(suf)`: drop `suf` once if `s` ends with it. -/
def removesuffix (s suf : String) : String :=
  if listBeginsWith suf.data.reverse s.data.reverse then
    String.mk (s.data.take (s.data.length - suf.data.length))
  else s

/-- Python's `os.path.basename`: the part after the last `'/'`. -/
def basename (s : String) : String :=
  String.mk ((s.data.reverse.takeWhile (fun c => c != '/')).reverse)

/-- Python's `s[:7]`. -/
def take7 (s : String) : String :=
  String.mk (s.data.take 7)

/-! ## `generate_metadata.py`

Embedding of the metadata boilerplate generator.  The script reads the
flat file `downstream-plugins` and, per non-comment line, computes a
target directory and writes one templated `metadata.yaml` file. -/

/-- Fuelled core of `re.sub(r'/(plugins|packages)/', '/', s)`: at each
position the two alternatives are tried; a match consumes the whole
matched text (both slashes included), emits a single `'/'`, and scanning
resumes after the match, exactly as `re.sub` does. -/
def subSegmentsFuel : Nat → List Char → List Char
  | _, [] => []
  | 0, l => l
  | fuel + 1, c :: rest =>
    if listBeginsWith "/plugins/".data (c :: rest) then
      '/' :: subSegmentsFuel fuel (List.drop 9 (c :: rest))
    else if listBeginsWith "/packages/".data (c :: rest) then
      '/' :: subSegmentsFuel fuel (List.drop 10 (c :: rest))
    else
      c :: subSegmentsFuel fuel rest

/-- `re.sub(r'/(plugins|packages)/', '/', s)` from `generate_metadata.py`. -/
def subSegments (l : List Char) : List Char :=
  subSegmentsFuel l.length l

/-- `generate_metadata.py` lines 37–46: the hybrid path-collapsing rule.
Paths in the `backstage` workspace keep their depth with
`/plugins/`‑ and `/packages/`‑segments collapsed; every other path is
cut down to its first component (`source_plugin_path.split('/')[0]`). -/
def final_path (source_plugin_path : String) : String :=
  if strStartsWith source_plugin_path "backstage/" then
    String.mk (subSegments source_plugin_path.data)
  else
    String.mk ((pySplit '/' source_plugin_path.data).headD [])

/-- `generate_metadata.py` lines 51–56: plugin-type classification from
substrings of the plugin name. -/
def plugin_type (plugin_name : String) : String :=
  if strContains plugin_name "backend-module" || strContains plugin_name "actions" ||
      strContains plugin_name "processor" then
    "backstage-backend-plugin-module"
  else if strContains plugin_name "backend" then
    "backstage-backend-plugin"
  else
    "backstage-plugin"

/-- `generate_metadata.py` line 58: `os.path.join(overlay_repo_root, final_path)`
with `overlay_repo_root = 'workspaces'` (the collapsed paths are relative,
so the join is plain concatenation with a slash). -/
def output_dir (source_plugin_path : String) : String :=
  "workspaces" ++ "/" ++ final_path source_plugin_path

/-- The `metadata_template.format(...).strip()` content of one generated
`metadata.yaml` (a trailing newline is appended by the write). -/
def metadataContent (plugin_name_sanitized final_path_for_url ptype : String) : String :=
  "apiVersion: backstage.io/v1alpha1\nkind: Component\nmetadata:\n  name: rhdh-plugin-" ++
    plugin_name_sanitized ++
    "\n  title: \x27@redhat/backstage-plugin-" ++ plugin_name_sanitized ++
    "\x27\n  annotations:\n    janus-idp.io/lifecycle: production\n    janus-idp.io/support: supported\n    backstage.io/view-url: https://github.com/redhat-developer/rhdh-plugin-export-overlays/tree/main/workspaces/" ++
    final_path_for_url ++
    "\n    backstage.io/edit-url: https://github.com/redhat-developer/rhdh-plugin-export-overlays/edit/main/workspaces/" ++
    final_path_for_url ++
    "/metadata.yaml\nspec:\n  type: " ++ ptype ++
    "\n  owner: group:default/rhdh-maintainers\n  lifecycle: production\n"

/-- One iteration of the generator's line loop: `None` when the stripped
line is empty or a `#` comment (the line is skipped), otherwise the
written file path and its content. -/
def processLine (rawLine : String) : Option (String × String) :=
  let line := pyStrip rawLine
  if line == "" || strStartsWith line "#" then none
  else
    let source_plugin_path := removesuffix line "/."
    let fp := final_path source_plugin_path
    let plugin_name := basename source_plugin_path
    let plugin_name_sanitized := pyReplace "backstage-plugin-" "" plugin_name
    let ptype := plugin_type plugin_name
    some (output_dir source_plugin_path ++ "/metadata.yaml",
          metadataContent plugin_name_sanitized fp ptype)

/-- `generate_metadata.py` top-level flow.  The input is the content of
`downstream-plugins` split into lines, or `none` when the file is absent
(the `FileNotFoundError` handler).  Returns the process exit code
together with the `(path, content)` pairs written. -/
def generator_main : Option (List String) → Nat × List (String × String)
  | none => (1, [])
  | some lines =>
    (0, lines.foldl (fun acc l =>
          match processLine l with
          | some out => acc ++ [out]
          | none => acc) [])

/-! ## `docs/rhdh1.8_vs_1.9.py`

Embedding of the support-level diff script.  The filesystem trees are
modelled by their observable content: the new tree is the list of
scanned metadata files as `(file name, extracted support tag)` pairs (in
the script's sorted scan order), and the old tree is an association list
from file name to the extracted support tag of that file — a file name
absent from the association list is a file missing from the old tree. -/

/-- `os.path.splitext(os.path.basename(fname))[0]` from `get_plugin_name`:
strip the directory part, then the extension at the last dot — unless
every character before that dot is itself a dot (Python's leading-dot
rule for hidden files). -/
def get_plugin_name (fname : String) : String :=
  let b := (basename fname).data
  match b.reverse.findIdx? (fun c => c == '.') with
  | none => String.mk b
  | some k =>
    let idx := b.length - 1 - k
    if (b.take idx).any (fun c => c != '.') then String.mk (b.take idx) else String.mk b

/-- Lines 52–57: the old support tag of the same-named file in the old
tree, or the in-band sentinel `"NOT FOUND"` if no such file exists. -/
def old_support (oldTree : List (String × String)) (fname : String) : String :=
  match oldTree.find? (fun e => e.1 == fname) with
  | some e => e.2
  | none => "NOT FOUND"

/-- Lines 47–64, projection of the comparison loop onto `found_entries`:
entries whose tag changed and whose old file was found. -/
def found_entries (oldTree : List (String × String)) (metadata_files : List (String × String)) :
    List (String × String × String) :=
  metadata_files.foldl (fun acc f =>
    if old_support oldTree f.1 != f.2 then
      if old_support oldTree f.1 == "NOT FOUND" then acc
      else acc ++ [(get_plugin_name f.1, old_support oldTree f.1, f.2)]
    else acc) []

/-- Lines 47–64, projection of the comparison loop onto
`not_found_entries`: entries whose tag changed and whose old file was
not found. -/
def not_found_entries (oldTree : List (String × String)) (metadata_files : List (String × String)) :
    List (String × String × String) :=
  metadata_files.foldl (fun acc f =>
    if old_support oldTree f.1 != f.2 then
      if old_support oldTree f.1 == "NOT FOUND" then
        acc ++ [(get_plugin_name f.1, old_support oldTree f.1, f.2)]
      else acc
    else acc) []

/-- Lines 20–29: colour styling of a support level label. -/
def style_support_level (support_level : String) : String :=
  if support_level == "production" then "[.green]#production#"
  else if support_level == "tech-preview" then "[.blue]#tech-preview#"
  else if support_level == "generally-available" then "[.green]#generally-available#"
  else support_level

/-- Lines 78–81: the rows of the first ("changed") table, one per
`found_entries` element. -/
def changedTableRows (oldTree metadata_files : List (String × String)) : List String :=
  (found_entries oldTree metadata_files).map (fun e =>
    "|" ++ e.1 ++ " |" ++ style_support_level e.2.1 ++ " |" ++ style_support_level e.2.2)

/-- Lines 92–94: the rows of the second ("new") table, one per
`not_found_entries` element. -/
def newTableRows (oldTree metadata_files : List (String × String)) : List String :=
  (not_found_entries oldTree metadata_files).map (fun e =>
    "|" ++ e.1 ++ " |" ++ style_support_level e.2.2)

/-- Lines 67–96: the full line list of `support_tags_comparison.adoc`. -/
def diffOutputLines (oldTree metadata_files : List (String × String)) : List String :=
  ["", "== Plugins Whose Support Level Has Changed Between RHDH 1.8 and 1.9", "",
   "[cols=\"3,1,1\"]", "|===",
   "|Plugin Name |RHDH 1.8 Support Level |RHDH 1.9 Support Level", ""] ++
  changedTableRows oldTree metadata_files ++
  ["|===", "", "== New Plugin Packages in RHDH 1.9", "", "[cols=\"3,1\"]", "|===",
   "|Plugin Name |RHDH 1.9 Support Level", ""] ++
  newTableRows oldTree metadata_files ++
  ["|==="]

/-! ## `.github/scripts/generate-wiki-page.py` — data model

Filesystem reads are modelled by `FileRead` (absent file, unparsable
file, or parsed value), remote calls by a per-workspace `RemoteEnv`
oracle recording what each external call would return. -/

/-- Result of opening and parsing one file. -/
inductive FileRead (α : Type) where
  | absent : FileRead α
  | readError : FileRead α
  | ok (val : α) : FileRead α

/-- The fields of `source.json` the script reads (each via `.get` with a
default, so each is optional). -/
structure SourceJson where
  repo : Option String
  repoRef : Option String
  repoFlat : Option Bool
  repoBackstageVersion : Option String

/-- A parsed YAML document as far as `parse_plugins_list` inspects it:
a mapping (whose keys the script takes, in document order), a plain list
(whose items the script assumes to be path strings), or any other shape.
`ynull` is also what an empty document parses to. -/
inductive Yaml where
  | ynull : Yaml
  | ystr (s : String) : Yaml
  | ymap (pairs : List (String × Yaml)) : Yaml
  | ylist (items : List String) : Yaml

/-- The single `version` field read from a `backstage.json` document. -/
structure BackstageJson where
  version : Option String

/-- The `name`/`version` fields read from a fetched `package.json`. -/
structure PkgJson where
  name : Option String
  version : Option String

/-- File counts of the four auxiliary sub-directories. -/
structure Counts where
  metadata : Nat
  plugins : Nat
  patches : Nat
  tests : Nat

/-- One element of the enhanced plugin list built in `main`. -/
structure PluginEntry where
  details : String
  path : String
  status : String

/-- What the remote calls for one workspace would return.
`ghCommit`: parsed `gh api .../commits/<sha>` output (full sha, first
message line, formatted date) or `none` on any failure; `pkgFetch`: the
parsed `package.json` per plugin path, `none` on any fetch failure;
`upstreamBackstage`: the parsed repository-root `backstage.json` on HTTP
200, `none` otherwise; `prNumbers`: the parsed `gh pr list` numbers when
the call succeeds with non-empty output, `none` otherwise. -/
structure RemoteEnv where
  ghCommit : Option (String × String × String)
  pkgFetch : String → Option PkgJson
  upstreamBackstage : Option BackstageJson
  prNumbers : Option (List String)

/-- Everything `main` reads for one workspace. -/
structure WsInput where
  sourceJson : FileRead SourceJson
  pluginsList : FileRead Yaml
  backstageJson : FileRead BackstageJson
  counts : Counts
  remote : RemoteEnv

/-- The per-workspace record collected by `main` (lines 524–538). -/
structure WsData where
  name : String
  repo_url : Option String
  commit_sha : Option String
  commit_short : Option String
  commit_message : String
  commit_date : String
  repo_flat : Bool
  overlay_backstage_version : Option String
  source_backstage_version : Option String
  plugins : List PluginEntry
  additional_files : Counts
  has_pending_prs : Bool
  pr_numbers : List String

/-- One directory entry of the workspaces root. -/
structure DirEntry where
  name : String
  isDir : Bool

/-- Python truthiness of an optional string: `None` and `''` are falsy. -/
def pyTruthy : Option String → Bool
  | none => false
  | some s => !(s == "")

/-- Python's `a or b` on optional strings. -/
def pyOrStr (a b : Option String) : Option String :=
  if pyTruthy a then a else b

/-- How Python formats an optional string into an f-string
(`None` renders as `"None"`). -/
def pyStr : Option String → String
  | some s => s
  | none => "None"

/-! ## `.github/scripts/generate-wiki-page.py` — functions -/

/-- Lines 52–63: `parse_source_json`.  A missing file returns `None`; a
JSON parse error or IO error is caught, logged and also returns `None`. -/
def parse_source_json : FileRead SourceJson → Option SourceJson
  | .absent => none
  | .readError => none
  | .ok sd => some sd

/-- Lines 66–89: `parse_plugins_list`.  A missing or unreadable file and
an empty document give `[]`; a mapping gives `list(data.keys())` (keys in
document order); a plain list is returned as-is; any other shape gives
`[]`. -/
def parse_plugins_list : FileRead Yaml → List String
  | .absent => []
  | .readError => []
  | .ok y =>
    match y with
    | .ymap pairs => pairs.map (fun p => p.1)
    | .ylist items => items
    | _ => []

/-- Lines 92–119: `get_plugin_details`.  `fetch` is the parsed
`package.json` returned by the GitHub content API, `none` on any failure
(non-200 status or exception): the raw plugin path is the fallback. -/
def get_plugin_details (fetch : Option PkgJson) (repo_url commit_sha plugin_path : String) : String :=
  if !strStartsWith repo_url "https://github.com/" then plugin_path
  else
    match fetch with
    | some data => data.name.getD "unknown" ++ "@" ++ data.version.getD "unknown"
    | none => plugin_path

/-- Lines 122–159: `get_commit_details`.  `ghCommit` is the parsed,
date-formatted output of the `gh api` call (full sha, first message
line, formatted date); `none` covers a failing call or too-short output.
On a non-GitHub URL or a failed call the fallback is
`(commit_sha[:7], "N/A", "N/A")`. -/
def get_commit_details (ghCommit : Option (String × String × String))
    (repo_url commit_sha : String) : String × String × String :=
  if !strStartsWith repo_url "https://github.com/" then (take7 commit_sha, "N/A", "N/A")
  else
    match ghCommit with
    | some (full_sha, message, date) => (take7 full_sha, message, date)
    | none => (take7 commit_sha, "N/A", "N/A")

/-- Lines 162–191: `check_pending_prs`.  `prNumbers` is the parsed PR
number list when the `gh pr list` call exits 0 with non-empty output,
`none` otherwise. -/
def check_pending_prs (prNumbers : Option (List String)) : Bool × List String :=
  match prNumbers with
  | some prs => (decide (prs.length > 0), prs)
  | none => (false, [])

/-- Lines 194–212: `get_backstage_version`.  `backstage.json` wins when it
parses and carries a `version`; otherwise `source.json`'s
`repo-backstage-version` is the fallback. -/
def get_backstage_version (backstageJson : FileRead BackstageJson)
    (sourceJson : FileRead SourceJson) : Option String :=
  match backstageJson with
  | .ok data =>
    match data.version with
    | some v => some v
    | none =>
      match parse_source_json sourceJson with
      | some sd => sd.repoBackstageVersion
      | none => none
  | _ =>
    match parse_source_json sourceJson with
    | some sd => sd.repoBackstageVersion
    | none => none

/-- Lines 215–235: `get_source_backstage_version`.  `upstreamBackstage`
is the parsed repository-root `backstage.json` on HTTP 200, `none` on
any failure.  Falsy (`None`/empty) URL or commit, or a non-GitHub URL,
short-circuit to `None`. -/
def get_source_backstage_version (upstreamBackstage : Option BackstageJson)
    (repo_url commit_sha : Option String) : Option String :=
  if !pyTruthy repo_url || !pyTruthy commit_sha ||
      !strStartsWith (repo_url.getD "") "https://github.com/" then none
  else
    match upstreamBackstage with
    | some data => data.version
    | none => none

/-- Lines 268–270: `plugin_path.lstrip('./').lstrip('/')`.  Python's
`lstrip` takes a character *set*, so the first call already removes all
leading `'.'` and `'/'` characters. -/
def cleanPath (plugin_path : String) : String :=
  String.mk ((plugin_path.data.dropWhile (fun c => c == '.' || c == '/')).dropWhile
    (fun c => c == '/'))

/-- Lines 257–283: `check_support_status`. -/
def check_support_status (plugin_path workspace_name : String)
    (supported_list community_list : List String) : String :=
  let clean_plugin_path := cleanPath plugin_path
  let full_path := workspace_name ++ "/" ++ clean_plugin_path
  if full_path ∈ supported_list then "Supported"
  else if full_path ∈ community_list then "Community"
  else if clean_plugin_path ∈ supported_list then "Supported"
  else if clean_plugin_path ∈ community_list then "Community"
  else "Unknown"

/-- Lines 286–301: `count_additional_files` — the recursive file counts
of the four auxiliary directories, taken from the workspace input. -/
def count_additional_files (inp : WsInput) : Counts :=
  inp.counts

/-- Environment variables read while rendering: `REPO_NAME` (`os.getenv`
without default, hence optional) and the formatted
`datetime.now(timezone.utc)` timestamp. -/
structure Env where
  repoName : Option String
  now : String

/-- Lines 391–406: the Backstage-version cell of one table row. -/
def renderBackstageVersion (overlay_version source_version : Option String) : String :=
  let display_version := pyOrStr source_version overlay_version
  if pyTruthy display_version then
    if pyTruthy overlay_version && pyTruthy source_version &&
        overlay_version != source_version then
      let tooltip := pyReplace "\"" "&quot;"
        ("Overlay overrides upstream version " ++ source_version.getD "" ++ " to " ++
          overlay_version.getD "")
      "<span style=\"color: #ff6b35;\" title=\"" ++ tooltip ++ "\">`" ++
        display_version.getD "" ++ "`</span>"
    else
      "`" ++ display_version.getD "" ++ "`"
  else
    "N/A"

/-- Lines 325–367: the badge list of the Type column.  (`ws['pr_numbers'][0]`
is modelled by `headD ""`; in `main` the list is non-empty whenever
`has_pending_prs` is set.) -/
def structBadges (env : Env) (branch_name : String) (ws : WsData) : List String :=
  let source_json_url := "https://github.com/" ++ pyStr env.repoName ++ "/blob/" ++
    branch_name ++ "/workspaces/" ++ ws.name ++ "/source.json"
  let struct_icon := if ws.repo_flat then "📄" else "🌳"
  let struct_tooltip := if ws.repo_flat then "Flat (root-level plugins)"
    else "Monorepo (workspace-based)"
  let b1 := ["[" ++ struct_icon ++ "](" ++ source_json_url ++ " \"" ++ struct_tooltip ++ "\")"]
  let b2 := if ws.additional_files.patches > 0 then
      b1 ++ ["<span title=\"Has patches\">🩹</span>"] else b1
  let b3 := if ws.additional_files.plugins > 0 then
      b2 ++ ["<span title=\"Has overlays\">🔄</span>"] else b2
  let b4 := if ws.additional_files.metadata > 0 then
      b3 ++ ["<span title=\"Metadata available\">🟢</span>"]
    else b3 ++ ["<span title=\"Metadata missing\">🔴</span>"]
  if ws.has_pending_prs then
    let pr_num := ws.pr_numbers.headD ""
    let pr_url := "https://github.com/" ++ pyStr env.repoName ++ "/pull/" ++ pr_num
    b4 ++ ["[<span title=\"Pending update PR #" ++ pr_num ++ "\">🔴</span>](" ++ pr_url ++ ")"]
  else b4

/-- Lines 324–431: one `| ... |` table row of the workspace overview. -/
def renderRow (env : Env) (branch_name : String) (ws : WsData) : String :=
  let structure_col := String.intercalate "<br>" (structBadges env branch_name ws)
  let overlay_repo_url := "https://github.com/" ++ pyStr env.repoName ++ "/tree/" ++
    branch_name ++ "/workspaces/" ++ ws.name
  let workspace_name := "[" ++ ws.name ++ "](" ++ overlay_repo_url ++ ")"
  let source :=
    if pyTruthy ws.repo_url && pyTruthy ws.commit_sha then
      let repo_name := pyReplace "https://github.com/" "" (ws.repo_url.getD "")
      if ws.repo_flat then
        "[" ++ repo_name ++ "@" ++ pyStr ws.commit_short ++ "](" ++ ws.repo_url.getD "" ++
          "/tree/" ++ ws.commit_sha.getD "" ++ ")"
      else
        "[" ++ repo_name ++ "@" ++ pyStr ws.commit_short ++ "](" ++ ws.repo_url.getD "" ++
          "/tree/" ++ ws.commit_sha.getD "" ++ "/workspaces/" ++ ws.name ++ ")"
    else "N/A"
  let commit_date := if ws.commit_date != "N/A" then firstField ' ' ws.commit_date else ""
  let backstage_version :=
    renderBackstageVersion ws.overlay_backstage_version ws.source_backstage_version
  let plugins_list :=
    if !ws.plugins.isEmpty then
      String.intercalate "<br>🔸 " ("" :: ws.plugins.map (fun p =>
        "`" ++ p.details ++ "`" ++
          (if p.status == "Supported" then "✅ Supported"
           else if p.status == "Community" then "🤝 Community"
           else "")))
    else "No plugins"
  "| " ++ structure_col ++ " | " ++ workspace_name ++ " | " ++ source ++ " | " ++
    commit_date ++ " | " ++ backstage_version ++ " | " ++ plugins_list ++ " |"

/-- Lines 306–322: the fixed lines preceding the table rows. -/
def mdHeaderLines (env : Env) (branch_name : String) (total : Nat) : List String :=
  ["# Workspace Status: `" ++ branch_name ++ "`", "",
   "**Last Updated:** " ++ env.now, "",
   "**Total Workspaces:** " ++ toString total, "",
   "---", "",
   "## Workspace Overview", "",
   "| Type | Workspace | Source | Commit Date | Backstage Version | Plugins |",
   "|:----:|-----------|--------|-------------|------------------|---------|"]

/-- Lines 304–437: `generate_markdown`, as the list of `md` lines; the
row loop is the `foldl` in the middle. -/
def generate_markdown_lines (env : Env) (branch_name : String)
    (workspaces_data : List WsData) : List String :=
  (workspaces_data.foldl (fun md ws => md ++ [renderRow env branch_name ws])
    (mdHeaderLines env branch_name workspaces_data.length)) ++ ["", "---", ""]

/-- Line 437: `'\n'.join(md)`. -/
def generate_markdown (env : Env) (branch_name : String)
    (workspaces_data : List WsData) : String :=
  String.intercalate "\n" (generate_markdown_lines env branch_name workspaces_data)

/-- Sort key of `sorted(workspaces_dir.iterdir())`: the entries share one
parent directory, so `Path` comparison is name comparison. -/
def byName (a b : DirEntry) : Prop :=
  a.name ≤ b.name

instance : DecidableRel byName :=
  fun a b => inferInstanceAs (Decidable (a.name ≤ b.name))

instance : IsTotal DirEntry byName :=
  ⟨fun a b => le_total a.name b.name⟩

instance : IsTrans DirEntry byName :=
  ⟨fun _ _ _ hab hbc => le_trans hab hbc⟩

/-- Lines 38–49: `get_workspace_list`.  `none` models a missing
workspaces root (the `exists()` guard); otherwise the sorted entries are
filtered to non-hidden directories.  (`sorted` is a stable sort under a
linear order, so any sorting algorithm yields the same list;
`insertionSort` is used here.) -/
def get_workspace_list : Option (List DirEntry) → List String
  | none => []
  | some entries =>
    ((List.insertionSort byName entries).filter
      (fun e => e.isDir && !strStartsWith e.name ".")).map (fun e => e.name)

/-- Lines 463–538: the body of `main`'s per-workspace loop, producing the
record appended to `workspaces_data`. -/
def collectWorkspace (inp : WsInput) (supported_plugins community_plugins : List String)
    (ws_name : String) : WsData :=
  let source_data := parse_source_json inp.sourceJson
  let plugins := parse_plugins_list inp.pluginsList
  let repo_url : Option String :=
    match source_data with
    | some sd => some (sd.repo.getD "")
    | none => none
  let commit_sha : Option String :=
    match source_data with
    | some sd => some (sd.repoRef.getD "")
    | none => none
  let repo_flat : Bool :=
    match source_data with
    | some sd => sd.repoFlat.getD false
    | none => false
  let cdetails : Option (String × String × String) :=
    match source_data with
    | some _ =>
      if pyTruthy repo_url && pyTruthy commit_sha then
        some (get_commit_details inp.remote.ghCommit (repo_url.getD "") (commit_sha.getD ""))
      else none
    | none => none
  let commit_short : Option String := cdetails.map (fun c => c.1)
  let commit_message : String := ((cdetails.map (fun c => c.2.1)).getD "N/A")
  let commit_date : String := ((cdetails.map (fun c => c.2.2)).getD "N/A")
  let backstage_version := get_backstage_version inp.backstageJson inp.sourceJson
  let source_backstage_version :=
    get_source_backstage_version inp.remote.upstreamBackstage repo_url commit_sha
  let enhanced_plugins : List PluginEntry :=
    if pyTruthy repo_url && pyTruthy commit_sha then
      plugins.map (fun plugin_path =>
        { details := get_plugin_details (inp.remote.pkgFetch plugin_path) (repo_url.getD "")
            (commit_sha.getD "") plugin_path,
          path := plugin_path,
          status := check_support_status plugin_path ws_name supported_plugins
            community_plugins })
    else
      plugins.map (fun plugin_path =>
        { details := plugin_path,
          path := plugin_path,
          status := check_support_status plugin_path ws_name supported_plugins
            community_plugins })
  let additional_files := count_additional_files inp
  let prResult := check_pending_prs inp.remote.prNumbers
  { name := ws_name,
    repo_url := repo_url,
    commit_sha := commit_sha,
    commit_short := commit_short,
    commit_message := commit_message,
    commit_date := commit_date,
    repo_flat := repo_flat,
    overlay_backstage_version := backstage_version,
    source_backstage_version := source_backstage_version,
    plugins := enhanced_plugins,
    additional_files := additional_files,
    has_pending_prs := prResult.1,
    pr_numbers := prResult.2 }

/-- Lines 461–538: the `workspaces_data` accumulation loop of `main`.
`inputs` maps each workspace name to what the filesystem and the remote
calls provide for it. -/
def mainWorkspacesData (inputs : String → WsInput)
    (supported_plugins community_plugins : List String)
    (workspace_names : List String) : List WsData :=
  workspace_names.foldl
    (fun acc ws_name =>
      acc ++ [collectWorkspace (inputs ws_name) supported_plugins community_plugins ws_name])
    []

/-! ## Concrete demonstration inputs -/

/-- A remote oracle on which every external call fails. -/
def demoRemote : RemoteEnv :=
  { ghCommit := none, pkgFetch := fun _ => none, upstreamBackstage := none, prNumbers := none }

/-- A workspace with no readable files at all. -/
def demoInput : WsInput :=
  { sourceJson := FileRead.absent, pluginsList := FileRead.absent,
    backstageJson := FileRead.absent, counts := ⟨0, 0, 0, 0⟩, remote := demoRemote }

/-- A workspace whose directory has no `source.json` but does have a
`plugins-list.yaml` listing one plugin path. -/
def inputNoSource : WsInput :=
  { sourceJson := FileRead.absent, pluginsList := FileRead.ok (Yaml.ylist ["plugins/a"]),
    backstageJson := FileRead.absent, counts := ⟨0, 0, 0, 0⟩, remote := demoRemote }

/-- An unsorted workspaces-root listing with a hidden directory and a
plain file. -/
def demoEntries : List DirEntry :=
  [⟨"kubernetes", true⟩, ⟨".git", true⟩, ⟨"acr", true⟩, ⟨"README.md", false⟩]

/-! ## Supporting lemmas -/

theorem strData_append (s t : String) : (s ++ t).data = s.data ++ t.data := by
  cases s
  cases t
  rfl

theorem foldl_append_eq_map {α β : Type} (f : α → β) :
    ∀ (l : List α) (acc : List β),
      l.foldl (fun a x => a ++ [f x]) acc = acc ++ l.map f := by
  intro l
  induction l with
  | nil => intro acc; simp
  | cons x xs ih => intro acc; simp [ih]

theorem listBeginsWith_append_self : ∀ (p t : List Char), listBeginsWith p (p ++ t) = true := by
  intro p t
  induction p with
  | nil => rfl
  | cons c cs ih => simp [listBeginsWith, ih]

theorem listBeginsWith_cons_of_ne {p c : Char} (ps cs : List Char) (h : (p == c) = false) :
    listBeginsWith (p :: ps) (c :: cs) = false := by
  simp [listBeginsWith, h]

theorem listBeginsWith_exists : ∀ (p l : List Char), listBeginsWith p l = true →
    ∃ t, l = p ++ t := by
  intro p
  induction p with
  | nil => intro l _; exact ⟨l, rfl⟩
  | cons a ps ih =>
    intro l h
    cases l with
    | nil => simp [listBeginsWith] at h
    | cons c cs =>
      simp only [listBeginsWith, Bool.and_eq_true, beq_iff_eq] at h
      obtain ⟨rfl, h2⟩ := h
      obtain ⟨t, rfl⟩ := ih cs h2
      exact ⟨t, rfl⟩

theorem containsSub_nilPat : ∀ l : List Char, containsSub l [] = true := by
  intro l
  cases l with
  | nil => rfl
  | cons c rest => simp [containsSub, listBeginsWith]

theorem containsSub_middle : ∀ (a v b : List Char), containsSub (a ++ (v ++ b)) v = true := by
  intro a v b
  induction a with
  | nil =>
    cases v with
    | nil => simpa using containsSub_nilPat b
    | cons vc vr =>
      show containsSub (vc :: (vr ++ b)) (vc :: vr) = true
      have := listBeginsWith_append_self (vc :: vr) b
      simp only [containsSub]
      simp only [List.cons_append] at this
      simp [this]
  | cons c a' ih =>
    simp [containsSub, ih]

theorem containsSub_eq_true_iff (l pat : List Char) :
    containsSub l pat = true ↔ ∃ x y, l = x ++ (pat ++ y) := by
  constructor
  · induction l with
    | nil =>
      intro h
      cases pat with
      | nil => exact ⟨[], [], rfl⟩
      | cons p ps => simp [containsSub, listBeginsWith] at h
    | cons c rest ih =>
      intro h
      simp only [containsSub, Bool.or_eq_true] at h
      rcases h with h | h
      · obtain ⟨t, ht⟩ := listBeginsWith_exists _ _ h
        exact ⟨[], t, ht⟩
      · obtain ⟨x, y, hxy⟩ := ih h
        exact ⟨c :: x, y, by simp [hxy]⟩
  · rintro ⟨x, y, rfl⟩
    exact containsSub_middle x pat y

theorem pyReplaceFuel_single_not_mem (q : Char) (rep : List Char) :
    ∀ (fuel : Nat) (l : List Char), q ∉ l → pyReplaceFuel [q] rep fuel l = l := by
  intro fuel
  induction fuel with
  | zero =>
    intro l _
    cases l <;> rfl
  | succ n ih =>
    intro l h
    cases l with
    | nil => rfl
    | cons c rest =>
      have hqc : (q == c) = false := by
        apply beq_eq_false_iff_ne.mpr
        intro hh
        exact h (by simp [hh])
      have hrest : q ∉ rest := fun hm => h (List.mem_cons_of_mem _ hm)
      simp only [pyReplaceFuel, List.isEmpty_cons, Bool.not_false, Bool.true_and]
      rw [listBeginsWith_cons_of_ne _ _ hqc]
      simp [ih rest hrest]

theorem pySplit_ne_nil (sep : Char) : ∀ l : List Char, pySplit sep l ≠ [] := by
  intro l
  cases l with
  | nil => simp [pySplit]
  | cons c rest =>
    simp only [pySplit]
    by_cases hc : (c == sep) = true
    · rw [if_pos hc]; simp
    · rw [if_neg hc]
      cases hps : pySplit sep rest with
      | nil => simp
      | cons g gs => simp

theorem headD_pySplit (sep : Char) :
    ∀ l : List Char, (pySplit sep l).headD [] = l.takeWhile (fun c => c != sep) := by
  intro l
  induction l with
  | nil => rfl
  | cons c rest ih =>
    simp only [pySplit, List.takeWhile_cons]
    by_cases hc : (c == sep) = true
    · rw [if_pos hc]
      have hceq : c = sep := beq_iff_eq.mp hc
      simp [hceq]
    · rw [if_neg hc]
      have hne : c != sep := by simpa [bne] using hc
      cases hps : pySplit sep rest with
      | nil => exact absurd hps (pySplit_ne_nil sep rest)
      | cons g gs =>
        have hg : g = rest.takeWhile (fun x => x != sep) := by
          have := ih
          rw [hps] at this
          simpa using this
        simp [hne, hg]

theorem subSegmentsFuel_no_slash : ∀ (fuel : Nat) (l : List Char), '/' ∉ l →
    subSegmentsFuel fuel l = l := by
  intro fuel
  induction fuel with
  | zero =>
    intro l _
    cases l <;> rfl
  | succ n ih =>
    intro l h
    cases l with
    | nil => rfl
    | cons c rest =>
      have hc : ('/' == c) = false := by
        apply beq_eq_false_iff_ne.mpr
        intro hh
        exact h (List.mem_cons.mpr (Or.inl hh))
      have e1 : listBeginsWith "/plugins/".data (c :: rest) = false := by
        rw [show "/plugins/".data = '/' :: "plugins/".data from rfl]
        exact listBeginsWith_cons_of_ne _ _ hc
      have e2 : listBeginsWith "/packages/".data (c :: rest) = false := by
        rw [show "/packages/".data = '/' :: "packages/".data from rfl]
        exact listBeginsWith_cons_of_ne _ _ hc
      have hrest : '/' ∉ rest := fun hm => h (List.mem_cons_of_mem _ hm)
      simp only [subSegmentsFuel, e1, e2]
      simp [ih rest hrest]

theorem subSegmentsFuel_peel : ∀ (pre : List Char), '/' ∉ pre →
    ∀ (fuel : Nat) (rest : List Char),
      subSegmentsFuel (pre.length + fuel) (pre ++ rest) = pre ++ subSegmentsFuel fuel rest := by
  intro pre
  induction pre with
  | nil => intro _ fuel rest; simp
  | cons c pre' ih =>
    intro h fuel rest
    have hc : ('/' == c) = false := by
      apply beq_eq_false_iff_ne.mpr
      intro hh
      exact h (List.mem_cons.mpr (Or.inl hh))
    have e1 : listBeginsWith "/plugins/".data (c :: (pre' ++ rest)) = false := by
      rw [show "/plugins/".data = '/' :: "plugins/".data from rfl]
      exact listBeginsWith_cons_of_ne _ _ hc
    have e2 : listBeginsWith "/packages/".data (c :: (pre' ++ rest)) = false := by
      rw [show "/packages/".data = '/' :: "packages/".data from rfl]
      exact listBeginsWith_cons_of_ne _ _ hc
    have hlen : (c :: pre').length + fuel = (pre'.length + fuel) + 1 := by
      simp [List.length_cons]
      omega
    rw [hlen, List.cons_append]
    simp only [subSegmentsFuel, e1, e2]
    have hpre' : '/' ∉ pre' := fun hm => h (List.mem_cons_of_mem _ hm)
    simp [ih hpre' fuel rest]

theorem subSegmentsFuel_plugins (fuel : Nat) (name : List Char) (h : '/' ∉ name) :
    subSegmentsFuel (fuel + 1) ("/plugins/".data ++ name) = '/' :: name := by
  have hpre : listBeginsWith "/plugins/".data ("/plugins/".data ++ name) = true :=
    listBeginsWith_append_self _ _
  rw [show "/plugins/".data ++ name = '/' :: ("plugins/".data ++ name) from rfl]
  simp only [subSegmentsFuel]
  rw [show ('/' : Char) :: ("plugins/".data ++ name) = "/plugins/".data ++ name from rfl, hpre]
  simp only [if_true]
  rw [show (9 : Nat) = "/plugins/".data.length from rfl, List.drop_left]
  rw [subSegmentsFuel_no_slash fuel name h]

theorem subSegmentsFuel_packages (fuel : Nat) (name : List Char) (h : '/' ∉ name) :
    subSegmentsFuel (fuel + 1) ("/packages/".data ++ name) = '/' :: name := by
  have hpre : listBeginsWith "/packages/".data ("/packages/".data ++ name) = true :=
    listBeginsWith_append_self _ _
  have hne : listBeginsWith "/plugins/".data ("/packages/".data ++ name) = false := by
    rw [show "/packages/".data ++ name = '/' :: 'p' :: ('a' :: "ckages/".data ++ name) from rfl]
    simp [listBeginsWith]
  rw [show "/packages/".data ++ name = '/' :: ("packages/".data ++ name) from rfl]
  simp only [subSegmentsFuel]
  rw [show ('/' : Char) :: ("packages/".data ++ name) = "/packages/".data ++ name from rfl]
  rw [hne, hpre]
  simp only [Bool.false_eq_true, if_false, if_true]
  rw [show (10 : Nat) = "/packages/".data.length from rfl, List.drop_left]
  rw [subSegmentsFuel_no_slash fuel name h]

theorem final_path_backstage_plugins (name : String) (h : '/' ∉ name.data) :
    final_path ("backstage/plugins/" ++ name) = "backstage/" ++ name := by
  have hdata : ("backstage/plugins/" ++ name).data =
      "backstage".data ++ ("/plugins/".data ++ name.data) := by
    rw [strData_append]
    rfl
  have hcond : strStartsWith ("backstage/plugins/" ++ name) "backstage/" = true := by
    rw [strStartsWith]
    rw [show ("backstage/plugins/" ++ name).data =
        "backstage/".data ++ ("plugins/".data ++ name.data) from by
      rw [strData_append]
      rfl]
    exact listBeginsWith_append_self _ _
  unfold final_path
  rw [hcond, if_pos rfl, subSegments, hdata]
  rw [List.length_append]
  rw [subSegmentsFuel_peel "backstage".data (by decide)]
  rw [show ("/plugins/".data ++ name.data).length = (8 + name.data.length) + 1 from by
    simp [List.length_append]
    omega]
  rw [subSegmentsFuel_plugins _ _ h]
  have hr : ("backstage/" ++ name).data = "backstage".data ++ '/' :: name.data := by
    rw [strData_append]
    rfl
  rw [← hr]

theorem final_path_backstage_packages (name : String) (h : '/' ∉ name.data) :
    final_path ("backstage/packages/" ++ name) = "backstage/" ++ name := by
  have hdata : ("backstage/packages/" ++ name).data =
      "backstage".data ++ ("/packages/".data ++ name.data) := by
    rw [strData_append]
    rfl
  have hcond : strStartsWith ("backstage/packages/" ++ name) "backstage/" = true := by
    rw [strStartsWith]
    rw [show ("backstage/packages/" ++ name).data =
        "backstage/".data ++ ("packages/".data ++ name.data) from by
      rw [strData_append]
      rfl]
    exact listBeginsWith_append_self _ _
  unfold final_path
  rw [hcond, if_pos rfl, subSegments, hdata]
  rw [List.length_append]
  rw [subSegmentsFuel_peel "backstage".data (by decide)]
  rw [show ("/packages/".data ++ name.data).length = (9 + name.data.length) + 1 from by
    simp [List.length_append]
    omega]
  rw [subSegmentsFuel_packages _ _ h]
  have hr : ("backstage/" ++ name).data = "backstage".data ++ '/' :: name.data := by
    rw [strData_append]
    rfl
  rw [← hr]

theorem final_path_not_backstage (p : String) (h : strStartsWith p "backstage/" = false) :
    final_path p = String.mk (p.data.takeWhile (fun c => c != '/')) := by
  unfold final_path
  rw [h, if_neg Bool.false_ne_true]
  exact congrArg String.mk (headD_pySplit '/' p.data)

theorem mainWorkspacesData_eq_map (inputs : String → WsInput)
    (sup com : List String) (names : List String) :
    mainWorkspacesData inputs sup com names =
      names.map (fun n => collectWorkspace (inputs n) sup com n) := by
  unfold mainWorkspacesData
  have := foldl_append_eq_map (fun n => collectWorkspace (inputs n) sup com n) names []
  simpa using this

theorem generate_markdown_lines_eq (env : Env) (branch : String) (wss : List WsData) :
    generate_markdown_lines env branch wss =
      mdHeaderLines env branch wss.length ++ wss.map (renderRow env branch) ++ ["", "---", ""] := by
  unfold generate_markdown_lines
  have := foldl_append_eq_map (fun ws => renderRow env branch ws)
    wss (mdHeaderLines env branch wss.length)
  rw [this]

/-! ## Claim theorems -/

/-- C6: in the metadata boilerplate generator, input plugin path
`"backstage/plugins/kubernetes"` produces output directory
`backstage/kubernetes` under the workspaces root, and input
`"3scale/plugins/3scale-backend"` produces output directory `3scale`; in
general, paths starting with `"backstage/"` have `/plugins/` or
`/packages/` segments collapsed, while every other path collapses to its
first path component (the prefix before the first slash). -/
theorem c6_generator_output_dirs :
    final_path "backstage/plugins/kubernetes" = "backstage/kubernetes" ∧
    output_dir "backstage/plugins/kubernetes" = "workspaces/backstage/kubernetes" ∧
    final_path "3scale/plugins/3scale-backend" = "3scale" ∧
    output_dir "3scale/plugins/3scale-backend" = "workspaces/3scale" ∧
    (∀ name : String, '/' ∉ name.data →
      final_path ("backstage/plugins/" ++ name) = "backstage/" ++ name ∧
      final_path ("backstage/packages/" ++ name) = "backstage/" ++ name) ∧
    (∀ p : String, strStartsWith p "backstage/" = false →
      final_path p = String.mk (p.data.takeWhile (fun c => c != '/'))) := by
  refine ⟨by decide, by decide, by decide, by decide, ?_, ?_⟩
  · intro name h
    exact ⟨final_path_backstage_plugins name h, final_path_backstage_packages name h⟩
  · intro p h
    exact final_path_not_backstage p h

/-- C6 witness: the general clauses of the theorem instantiated at the
two concrete inputs named by the claim. -/
theorem c6_generator_output_dirs_witness :
    ('/' ∉ ("kubernetes" : String).data) ∧
    final_path ("backstage/plugins/" ++ "kubernetes") = "backstage/" ++ "kubernetes" ∧
    strStartsWith "3scale/plugins/3scale-backend" "backstage/" = false ∧
    final_path "3scale/plugins/3scale-backend" =
      String.mk (("3scale/plugins/3scale-backend" : String).data.takeWhile (fun c => c != '/')) := by
  refine ⟨by decide, (c6_generator_output_dirs.2.2.2.2.1 "kubernetes" (by decide)).1, by decide, ?_⟩
  exact c6_generator_output_dirs.2.2.2.2.2 "3scale/plugins/3scale-backend" (by decide)

/-- C10: generator plugin-type precedence — a plugin name containing
`backend-module`, `actions` or `processor` as a substring is typed
`backstage-backend-plugin-module` even when it also contains `backend`;
otherwise a name containing `backend` is typed
`backstage-backend-plugin`; otherwise `backstage-plugin`. -/
theorem c10_plugin_type_precedence (pn : String) :
    ((∃ x y, pn.data = x ++ ("backend-module".data ++ y)) ∨
     (∃ x y, pn.data = x ++ ("actions".data ++ y)) ∨
     (∃ x y, pn.data = x ++ ("processor".data ++ y)) →
      plugin_type pn = "backstage-backend-plugin-module") ∧
    (strContains pn "backend-module" = false →
     strContains pn "actions" = false →
     strContains pn "processor" = false →
     (∃ x y, pn.data = x ++ ("backend".data ++ y)) →
      plugin_type pn = "backstage-backend-plugin") ∧
    (strContains pn "backend-module" = false →
     strContains pn "actions" = false →
     strContains pn "processor" = false →
     strContains pn "backend" = false →
      plugin_type pn = "backstage-plugin") := by
  refine ⟨?_, ?_, ?_⟩
  · rintro (h | h | h)
    · have hb : strContains pn "backend-module" = true := by
        rw [strContains, containsSub_eq_true_iff]
        exact h
      unfold plugin_type
      simp [hb]
    · have hb : strContains pn "actions" = true := by
        rw [strContains, containsSub_eq_true_iff]
        exact h
      unfold plugin_type
      simp [hb]
    · have hb : strContains pn "processor" = true := by
        rw [strContains, containsSub_eq_true_iff]
        exact h
      unfold plugin_type
      simp [hb]
  · intro h1 h2 h3 hb
    have hb4 : strContains pn "backend" = true := by
      rw [strContains, containsSub_eq_true_iff]
      exact hb
    unfold plugin_type
    simp [h1, h2, h3, hb4]
  · intro h1 h2 h3 h4
    unfold plugin_type
    simp [h1, h2, h3, h4]

/-- C10 witness: a name containing both `backend-module` and `backend`
is typed as a module, and a plain `backend` name as a backend plugin. -/
theorem c10_plugin_type_precedence_witness :
    (∃ x y, ("scaffolder-backend-module-foo" : String).data =
      x ++ (("backend-module" : String).data ++ y)) ∧
    plugin_type "scaffolder-backend-module-foo" = "backstage-backend-plugin-module" ∧
    strContains "acr-backend" "backend-module" = false ∧
    strContains "acr-backend" "actions" = false ∧
    strContains "acr-backend" "processor" = false ∧
    plugin_type "acr-backend" = "backstage-backend-plugin" := by
  have hex : ∃ x y, ("scaffolder-backend-module-foo" : String).data =
      x ++ (("backend-module" : String).data ++ y) :=
    ⟨("scaffolder-" : String).data, ("-foo" : String).data, by decide⟩
  refine ⟨hex, (c10_plugin_type_precedence "scaffolder-backend-module-foo").1 (Or.inl hex),
    by decide, by decide, by decide, ?_⟩
  exact (c10_plugin_type_precedence "acr-backend").2.1 (by decide) (by decide) (by decide)
    ⟨("acr-" : String).data, [], by decide⟩

/-- C8: the only fatal failure in the reporting path is the generator's
missing top-level input file (`downstream-plugins`), which exits with
code 1; a present input yields exit code 0, and every listed wiki-script
failure — missing descriptor, parse error, failed remote call — is
absorbed into a placeholder value (`none`, `[]`, the raw path, or
`"N/A"` fields) while the per-workspace collection always produces one
record per workspace. -/
theorem c8_only_missing_input_is_fatal :
    (generator_main none).1 = 1 ∧
    (∀ lines, (generator_main (some lines)).1 = 0) ∧
    parse_source_json FileRead.absent = none ∧
    parse_source_json FileRead.readError = none ∧
    parse_plugins_list FileRead.absent = [] ∧
    parse_plugins_list FileRead.readError = [] ∧
    (∀ repo sha p, get_plugin_details none repo sha p = p) ∧
    (∀ repo sha, get_commit_details none repo sha = (take7 sha, "N/A", "N/A")) ∧
    (∀ url sha, get_source_backstage_version none url sha = none) ∧
    (∀ inputs sup com names,
      (mainWorkspacesData inputs sup com names).length = names.length) := by
  refine ⟨rfl, fun _ => rfl, rfl, rfl, rfl, rfl, ?_, ?_, ?_, ?_⟩
  · intro repo sha p
    unfold get_plugin_details
    split
    · rfl
    · rfl
  · intro repo sha
    unfold get_commit_details
    split
    · rfl
    · rfl
  · intro url sha
    unfold get_source_backstage_version
    split
    · rfl
    · rfl
  · intro inputs sup com names
    rw [mainWorkspacesData_eq_map]
    simp

/-- C3: `parse_plugins_list` normalization — the mapping
`{a: null, b: null}` and the list `[a, b]` both yield `["a", "b"]`; in
general a mapping normalizes to the list of its keys in document order,
a plain list is returned as-is, and any other parsed shape (null, i.e.
also an empty document, or a scalar) yields `[]`. -/
theorem c3_plugins_list_normalization :
    parse_plugins_list (FileRead.ok (Yaml.ymap [("a", Yaml.ynull), ("b", Yaml.ynull)])) =
      ["a", "b"] ∧
    parse_plugins_list (FileRead.ok (Yaml.ylist ["a", "b"])) = ["a", "b"] ∧
    (∀ pairs, parse_plugins_list (FileRead.ok (Yaml.ymap pairs)) = pairs.map (fun p => p.1)) ∧
    (∀ items, parse_plugins_list (FileRead.ok (Yaml.ylist items)) = items) ∧
    parse_plugins_list (FileRead.ok Yaml.ynull) = [] ∧
    (∀ s, parse_plugins_list (FileRead.ok (Yaml.ystr s)) = []) :=
  ⟨rfl, rfl, fun _ => rfl, fun _ => rfl, rfl, fun _ => rfl⟩

/-- C4 counterexample: the plugin path `"p"` is present verbatim in the
supported list, yet `check_support_status` classifies it as
`"Community"`, because the workspace-prefixed form `"ws/p"` is looked up
in the community list before the bare path reaches the supported
list. -/
theorem c4_counterexample_verbatim_supported :
    ("p" : String) ∈ (["p"] : List String) ∧
    check_support_status "p" "ws" ["p"] ["ws/p"] = "Community" ∧
    check_support_status "p" "ws" ["p"] ["ws/p"] ≠ "Supported" :=
  ⟨by decide, by decide, by decide⟩

/-- C4 corrected: classification works on the *cleaned* path (leading
`'.'` and `'/'` characters stripped) and the workspace-prefixed checks
take precedence — a cleaned path in the supported list classifies as
`"Supported"` provided its workspace-prefixed form is not in the
community list; a cleaned path in the community list classifies as
`"Community"` provided neither its workspace-prefixed form nor the
cleaned path itself is in the supported list; a path none of whose
checked forms is in either list classifies as `"Unknown"`. -/
theorem c4_support_status_amended (p ws : String) (sup com : List String) :
    (cleanPath p ∈ sup → (ws ++ "/" ++ cleanPath p) ∉ com →
      check_support_status p ws sup com = "Supported") ∧
    (cleanPath p ∈ com → (ws ++ "/" ++ cleanPath p) ∉ sup → cleanPath p ∉ sup →
      check_support_status p ws sup com = "Community") ∧
    ((ws ++ "/" ++ cleanPath p) ∉ sup → (ws ++ "/" ++ cleanPath p) ∉ com →
      cleanPath p ∉ sup → cleanPath p ∉ com →
      check_support_status p ws sup com = "Unknown") := by
  refine ⟨?_, ?_, ?_⟩
  · intro h1 h2
    unfold check_support_status
    dsimp only
    split_ifs <;> rfl
  · intro h1 h2 h3
    unfold check_support_status
    dsimp only
    split_ifs <;> rfl
  · intro h1 h2 h3 h4
    unfold check_support_status
    dsimp only
    rw [if_neg h1, if_neg h2, if_neg h3, if_neg h4]

/-- C4 witness: the amended classification at a concrete input. -/
theorem c4_support_status_amended_witness :
    cleanPath "plugins/x" ∈ (["plugins/x"] : List String) ∧
    ("acr" ++ "/" ++ cleanPath "plugins/x") ∉ ([] : List String) ∧
    check_support_status "plugins/x" "acr" ["plugins/x"] [] = "Supported" :=
  ⟨by decide, by decide,
    (c4_support_status_amended "plugins/x" "acr" ["plugins/x"] []).1 (by decide) (by decide)⟩

/-- C9: support-classification precedence — the workspace-prefixed form
is checked before the bare cleaned path, and within each form the
supported list is checked before the community list; in particular a
workspace-prefixed form in the supported list always gives
`"Supported"`, and a workspace-prefixed form in the community list gives
`"Community"` even when the bare path is in the supported list. -/
theorem c9_support_status_check_order (p ws : String) (sup com : List String) :
    ((ws ++ "/" ++ cleanPath p) ∈ sup → check_support_status p ws sup com = "Supported") ∧
    ((ws ++ "/" ++ cleanPath p) ∈ com → (ws ++ "/" ++ cleanPath p) ∉ sup →
      check_support_status p ws sup com = "Community") ∧
    ((ws ++ "/" ++ cleanPath p) ∉ sup → (ws ++ "/" ++ cleanPath p) ∉ com →
      cleanPath p ∈ sup → check_support_status p ws sup com = "Supported") ∧
    ((ws ++ "/" ++ cleanPath p) ∉ sup → (ws ++ "/" ++ cleanPath p) ∉ com →
      cleanPath p ∉ sup → cleanPath p ∈ com →
      check_support_status p ws sup com = "Community") := by
  refine ⟨?_, ?_, ?_, ?_⟩
  · intro h1
    unfold check_support_status
    dsimp only
    rw [if_pos h1]
  · intro h1 h2
    unfold check_support_status
    dsimp only
    rw [if_neg h2, if_pos h1]
  · intro h1 h2 h3
    unfold check_support_status
    dsimp only
    rw [if_neg h1, if_neg h2, if_pos h3]
  · intro h1 h2 h3 h4
    unfold check_support_status
    dsimp only
    rw [if_neg h1, if_neg h2, if_neg h3, if_pos h4]

/-- C9 witness: both "in particular" consequences of the precedence at
concrete inputs — the prefixed form in both lists gives `"Supported"`,
and the prefixed form in the community list beats a bare path in the
supported list. -/
theorem c9_support_status_check_order_witness :
    ("ws" ++ "/" ++ cleanPath "p") ∈ (["ws/p"] : List String) ∧
    check_support_status "p" "ws" ["ws/p"] ["ws/p"] = "Supported" ∧
    ("ws" ++ "/" ++ cleanPath "p") ∉ (["p"] : List String) ∧
    check_support_status "p" "ws" ["p"] ["ws/p"] = "Community" := by
  refine ⟨by decide, ?_, by decide, ?_⟩
  · exact (c9_support_status_check_order "p" "ws" ["ws/p"] ["ws/p"]).1 (by decide)
  · exact (c9_support_status_check_order "p" "ws" ["p"] ["ws/p"]).2.1 (by decide) (by decide)

theorem foldl_ite_append {α β : Type} (keep : α → Bool) (out : α → β) :
    ∀ (l : List α) (acc : List β),
      l.foldl (fun acc x => if keep x then acc ++ [out x] else acc) acc =
        acc ++ (l.filter keep).map out := by
  intro l
  induction l with
  | nil => intro acc; simp
  | cons x xs ih =>
    intro acc
    rw [List.foldl_cons, List.filter_cons]
    by_cases h : keep x = true
    · simp [h, ih]
    · have hf : keep x = false := by simpa using h
      simp [hf, ih]

theorem found_entries_eq (oldT newF : List (String × String)) :
    found_entries oldT newF =
      (newF.filter (fun f => (old_support oldT f.1 != f.2) &&
        (old_support oldT f.1 != "NOT FOUND"))).map
        (fun f => (get_plugin_name f.1, old_support oldT f.1, f.2)) := by
  unfold found_entries
  have hfun : (fun (acc : List (String × String × String)) (f : String × String) =>
      if old_support oldT f.1 != f.2 then
        if old_support oldT f.1 == "NOT FOUND" then acc
        else acc ++ [(get_plugin_name f.1, old_support oldT f.1, f.2)]
      else acc) =
      (fun acc f =>
        if (old_support oldT f.1 != f.2) && (old_support oldT f.1 != "NOT FOUND") then
          acc ++ [(get_plugin_name f.1, old_support oldT f.1, f.2)]
        else acc) := by
    funext acc f
    by_cases h1 : (old_support oldT f.1 != f.2) = true
    · by_cases h2 : (old_support oldT f.1 == "NOT FOUND") = true
      · simp [bne, h1, h2]
      · have h2f : (old_support oldT f.1 == "NOT FOUND") = false := by simpa using h2
        simp [bne, h1, h2f]
    · have h1f : (old_support oldT f.1 != f.2) = false := by simpa using h1
      simp [h1f]
  rw [hfun]
  exact foldl_ite_append _ _ newF []

theorem not_found_entries_eq (oldT newF : List (String × String)) :
    not_found_entries oldT newF =
      (newF.filter (fun f => (old_support oldT f.1 != f.2) &&
        (old_support oldT f.1 == "NOT FOUND"))).map
        (fun f => (get_plugin_name f.1, old_support oldT f.1, f.2)) := by
  unfold not_found_entries
  have hfun : (fun (acc : List (String × String × String)) (f : String × String) =>
      if old_support oldT f.1 != f.2 then
        if old_support oldT f.1 == "NOT FOUND" then
          acc ++ [(get_plugin_name f.1, old_support oldT f.1, f.2)]
        else acc
      else acc) =
      (fun acc f =>
        if (old_support oldT f.1 != f.2) && (old_support oldT f.1 == "NOT FOUND") then
          acc ++ [(get_plugin_name f.1, old_support oldT f.1, f.2)]
        else acc) := by
    funext acc f
    by_cases h1 : (old_support oldT f.1 != f.2) = true
    · by_cases h2 : (old_support oldT f.1 == "NOT FOUND") = true
      · simp [bne, h1, h2]
      · have h2f : (old_support oldT f.1 == "NOT FOUND") = false := by simpa using h2
        simp [bne, h1, h2f]
    · have h1f : (old_support oldT f.1 != f.2) = false := by simpa using h1
      simp [h1f]
  rw [hfun]
  exact foldl_ite_append _ _ newF []

/-- C7 counterexample: the old tree does contain a file `p.yaml`, but its
extracted support tag happens to be the script's in-band sentinel
`"NOT FOUND"`; the new tag `"production"` differs, yet the plugin gets a
row in the "new" table and none in the "changed" table — contradicting
the claim that an existing old file with a differing tag appears only in
the "changed" table. -/
theorem c7_counterexample_sentinel_tag :
    (List.find? (fun e => e.1 == "p.yaml") [("p.yaml", "NOT FOUND")]).isSome = true ∧
    found_entries [("p.yaml", "NOT FOUND")] [("p.yaml", "production")] = [] ∧
    not_found_entries [("p.yaml", "NOT FOUND")] [("p.yaml", "production")] =
      [("p", "NOT FOUND", "production")] :=
  ⟨by decide, by decide, by decide⟩

/-- C7 corrected: the "changed" table rows come exactly from the scanned
files whose old tag differs from the new tag and is not the sentinel
`"NOT FOUND"`, the "new" table rows exactly from those whose old tag is
the sentinel and differs from the new tag; consequently a file whose old
and new tags agree produces no row, a file with no old-tree counterpart
appears only in the "new" table *provided its new tag is not the literal
string `"NOT FOUND"`*, and a file with an old counterpart and differing
tag appears only in the "changed" table *provided the old tag is not the
literal string `"NOT FOUND"`* — the script cannot distinguish that tag
value from a missing file. -/
theorem c7_diff_tables_amended (oldT newF : List (String × String)) :
    (found_entries oldT newF =
      (newF.filter (fun f => (old_support oldT f.1 != f.2) &&
        (old_support oldT f.1 != "NOT FOUND"))).map
        (fun f => (get_plugin_name f.1, old_support oldT f.1, f.2))) ∧
    (not_found_entries oldT newF =
      (newF.filter (fun f => (old_support oldT f.1 != f.2) &&
        (old_support oldT f.1 == "NOT FOUND"))).map
        (fun f => (get_plugin_name f.1, old_support oldT f.1, f.2))) ∧
    (∀ f : String × String, old_support oldT f.1 = f.2 →
      ((old_support oldT f.1 != f.2) && (old_support oldT f.1 != "NOT FOUND")) = false ∧
      ((old_support oldT f.1 != f.2) && (old_support oldT f.1 == "NOT FOUND")) = false) ∧
    (∀ f : String × String, List.find? (fun e => e.1 == f.1) oldT = none →
      f.2 ≠ "NOT FOUND" →
      ((old_support oldT f.1 != f.2) && (old_support oldT f.1 == "NOT FOUND")) = true ∧
      ((old_support oldT f.1 != f.2) && (old_support oldT f.1 != "NOT FOUND")) = false) ∧
    (∀ (f : String × String) (t : String × String),
      List.find? (fun e => e.1 == f.1) oldT = some t →
      t.2 ≠ f.2 → t.2 ≠ "NOT FOUND" →
      ((old_support oldT f.1 != f.2) && (old_support oldT f.1 != "NOT FOUND")) = true ∧
      ((old_support oldT f.1 != f.2) && (old_support oldT f.1 == "NOT FOUND")) = false) := by
  refine ⟨found_entries_eq oldT newF, not_found_entries_eq oldT newF, ?_, ?_, ?_⟩
  · intro f h
    rw [h]
    simp [bne]
  · intro f hfind hne
    have hos : old_support oldT f.1 = "NOT FOUND" := by
      unfold old_support
      rw [hfind]
    rw [hos]
    constructor
    · simp [bne]
      exact fun hh => hne hh.symm
    · simp [bne]
  · intro f t hfind hne hnf
    have hos : old_support oldT f.1 = t.2 := by
      unfold old_support
      rw [hfind]
    rw [hos]
    constructor
    · simp [bne, hne, hnf]
    · simp [bne, hnf]

/-- C7 witness: the amended per-file conditions at concrete inputs — a
file with an unchanged tag passes neither table filter, and a file with
a changed, non-sentinel old tag passes exactly the "changed" filter. -/
theorem c7_diff_tables_amended_witness :
    old_support [("a.yaml", "production")] "a.yaml" = "production" ∧
    ((old_support [("a.yaml", "production")] "a.yaml" != "production") &&
      (old_support [("a.yaml", "production")] "a.yaml" != "NOT FOUND")) = false ∧
    ((old_support [("b.yaml", "production")] "b.yaml" != "tech-preview") &&
      (old_support [("b.yaml", "production")] "b.yaml" != "NOT FOUND")) = true := by
  refine ⟨by decide, ?_, ?_⟩
  · exact ((c7_diff_tables_amended [("a.yaml", "production")] []).2.2.1
      ("a.yaml", "production") (by decide)).1
  · exact ((c7_diff_tables_amended [("b.yaml", "production")] []).2.2.2.2
      ("b.yaml", "tech-preview") ("b.yaml", "production") (by decide) (by decide) (by decide)).1

/-- C2 counterexample: a workspace directory without `source.json` but
with a `plugins-list.yaml` listing one path yields a record whose plugin
list is NOT empty, and whose repository field is `none` (Python `None`),
not the string `"N/A"` — only the commit message/date fields carry
`"N/A"`. -/
theorem c2_counterexample_nonempty_plugins :
    inputNoSource.sourceJson = FileRead.absent ∧
    (collectWorkspace inputNoSource [] [] "ws").plugins =
      [{ details := "plugins/a", path := "plugins/a", status := "Unknown" }] ∧
    (collectWorkspace inputNoSource [] [] "ws").repo_url = none :=
  ⟨rfl, rfl, rfl⟩

/-- C2 corrected: for a workspace whose directory has no `source.json`,
the collected record has `None` repository-URL and commit-SHA fields,
`"N/A"` commit message and date, and a plugin list parsed from
`plugins-list.yaml` independently of `source.json` (so empty exactly
when that file is absent, unreadable, empty or ill-shaped); processing
of subsequent workspaces continues — the collection loop always yields
one record per workspace. -/
theorem c2_missing_source_json_amended :
    (∀ (pl : FileRead Yaml) (bj : FileRead BackstageJson) (cnt : Counts) (rem : RemoteEnv)
        (sup com : List String) (name : String),
      (collectWorkspace ⟨FileRead.absent, pl, bj, cnt, rem⟩ sup com name).repo_url = none ∧
      (collectWorkspace ⟨FileRead.absent, pl, bj, cnt, rem⟩ sup com name).commit_sha = none ∧
      (collectWorkspace ⟨FileRead.absent, pl, bj, cnt, rem⟩ sup com name).commit_short = none ∧
      (collectWorkspace ⟨FileRead.absent, pl, bj, cnt, rem⟩ sup com name).commit_message =
        "N/A" ∧
      (collectWorkspace ⟨FileRead.absent, pl, bj, cnt, rem⟩ sup com name).commit_date = "N/A" ∧
      (collectWorkspace ⟨FileRead.absent, pl, bj, cnt, rem⟩ sup com name).plugins =
        (parse_plugins_list pl).map (fun p =>
          { details := p, path := p, status := check_support_status p name sup com })) ∧
    (∀ (inputs : String → WsInput) (sup com : List String) (names : List String),
      (mainWorkspacesData inputs sup com names).length = names.length) := by
  refine ⟨?_, ?_⟩
  · intro pl bj cnt rem sup com name
    exact ⟨rfl, rfl, rfl, rfl, rfl, rfl⟩
  · intro inputs sup com names
    rw [mainWorkspacesData_eq_map]
    simp

/-- C5: the Backstage-version cell — when the overlay-declared and
upstream-detected versions are both present (non-`None`, non-empty:
Python truthiness) and differ, the cell is the coloured override span
whose tooltip carries both version values; when both are present and
equal, or only one is present, the cell is exactly one back-quoted
version with no override span; when neither is present the cell is
`"N/A"`. -/
theorem c5_backstage_version_cell (o s : Option String) :
    (pyTruthy o = true → pyTruthy s = true → o ≠ s →
      renderBackstageVersion o s =
        "<span style=\"color: #ff6b35;\" title=\"" ++
          pyReplace "\"" "&quot;" ("Overlay overrides upstream version " ++ s.getD "" ++
            " to " ++ o.getD "") ++ "\">`" ++ s.getD "" ++ "`</span>") ∧
    (pyTruthy o = true → pyTruthy s = true → o ≠ s →
      '"' ∉ ("Overlay overrides upstream version " ++ s.getD "" ++ " to " ++ o.getD "").data →
      strContains (renderBackstageVersion o s) (s.getD "") = true ∧
      strContains (renderBackstageVersion o s) (o.getD "") = true) ∧
    (pyTruthy o = true → pyTruthy s = true → o = s →
      renderBackstageVersion o s = "`" ++ s.getD "" ++ "`") ∧
    (pyTruthy s = true → pyTruthy o = false →
      renderBackstageVersion o s = "`" ++ s.getD "" ++ "`") ∧
    (pyTruthy o = true → pyTruthy s = false →
      renderBackstageVersion o s = "`" ++ o.getD "" ++ "`") ∧
    (pyTruthy o = false → pyTruthy s = false →
      renderBackstageVersion o s = "N/A") := by
  have key : pyTruthy o = true → pyTruthy s = true → o ≠ s →
      renderBackstageVersion o s =
        "<span style=\"color: #ff6b35;\" title=\"" ++
          pyReplace "\"" "&quot;" ("Overlay overrides upstream version " ++ s.getD "" ++
            " to " ++ o.getD "") ++ "\">`" ++ s.getD "" ++ "`</span>" := by
    intro ho hs hne
    have hbe : (o == s) = false := beq_eq_false_iff_ne.mpr hne
    have hne2 : (o != s) = true := by simp [bne, hbe]
    have hd : pyOrStr s o = s := by
      unfold pyOrStr
      rw [if_pos hs]
    unfold renderBackstageVersion
    rw [hd]
    simp [ho, hs, hne2]
  refine ⟨key, ?_, ?_, ?_, ?_, ?_⟩
  · intro ho hs hne hq
    have heq := key ho hs hne
    have htool : pyReplace "\"" "&quot;"
        ("Overlay overrides upstream version " ++ s.getD "" ++ " to " ++ o.getD "") =
        "Overlay overrides upstream version " ++ s.getD "" ++ " to " ++ o.getD "" := by
      unfold pyReplace
      rw [show ("\"" : String).data = ['"'] from rfl]
      rw [pyReplaceFuel_single_not_mem '"' _ _ _ hq]
    constructor
    · rw [strContains, heq, htool]
      refine (containsSub_eq_true_iff _ _).mpr
        ⟨("<span style=\"color: #ff6b35;\" title=\"" : String).data ++
          ("Overlay overrides upstream version " : String).data,
         (" to " : String).data ++ (o.getD "").data ++
          (("\">`" : String).data ++ ((s.getD "").data ++ ("`</span>" : String).data)), ?_⟩
      simp [strData_append]
    · rw [strContains, heq, htool]
      refine (containsSub_eq_true_iff _ _).mpr
        ⟨("<span style=\"color: #ff6b35;\" title=\"" : String).data ++
          ("Overlay overrides upstream version " : String).data ++ (s.getD "").data ++
          (" to " : String).data,
         ("\">`" : String).data ++ ((s.getD "").data ++ ("`</span>" : String).data), ?_⟩
      simp [strData_append]
  · intro ho hs heq2
    have hbe : (o == s) = true := beq_iff_eq.mpr heq2
    have hne2 : (o != s) = false := by simp [bne, hbe]
    have hd : pyOrStr s o = s := by
      unfold pyOrStr
      rw [if_pos hs]
    unfold renderBackstageVersion
    rw [hd]
    simp [ho, hs, hne2]
  · intro hs ho
    have hd : pyOrStr s o = s := by
      unfold pyOrStr
      rw [if_pos hs]
    unfold renderBackstageVersion
    rw [hd]
    simp [ho, hs]
  · intro ho hs
    have hd : pyOrStr s o = o := by
      unfold pyOrStr
      rw [if_neg]
      simp [hs]
    unfold renderBackstageVersion
    rw [hd]
    simp [ho, hs]
  · intro ho hs
    have hd : pyOrStr s o = o := by
      unfold pyOrStr
      rw [if_neg]
      simp [hs]
    unfold renderBackstageVersion
    rw [hd]
    simp [ho]

/-- C5 witness: the override cell at two concrete differing versions. -/
theorem c5_backstage_version_cell_witness :
    pyTruthy (some "1.2.0") = true ∧ pyTruthy (some "1.3.0") = true ∧
    (some "1.2.0" : Option String) ≠ some "1.3.0" ∧
    renderBackstageVersion (some "1.2.0") (some "1.3.0") =
      "<span style=\"color: #ff6b35;\" title=\"" ++
        pyReplace "\"" "&quot;" ("Overlay overrides upstream version " ++
          (some "1.3.0" : Option String).getD "" ++ " to " ++
          (some "1.2.0" : Option String).getD "") ++ "\">`" ++
        (some "1.3.0" : Option String).getD "" ++ "`</span>" := by
  refine ⟨by decide, by decide, by decide, ?_⟩
  exact (c5_backstage_version_cell (some "1.2.0") (some "1.3.0")).1 (by decide) (by decide)
    (by decide)

/-- C1: the wiki page contains exactly one table row per workspace, the
rows appear in the order of the workspace list, the workspace list is
the sorted order of the names of the root's non-hidden subdirectories,
and a missing root yields an empty workspace list and hence no rows. -/
theorem c1_one_row_per_workspace (env : Env) (branch : String)
    (root : Option (List DirEntry)) (inputs : String → WsInput) (sup com : List String) :
    (generate_markdown_lines env branch
        (mainWorkspacesData inputs sup com (get_workspace_list root)) =
      mdHeaderLines env branch
          (mainWorkspacesData inputs sup com (get_workspace_list root)).length ++
        (get_workspace_list root).map
          (fun n => renderRow env branch (collectWorkspace (inputs n) sup com n)) ++
        ["", "---", ""]) ∧
    ((mainWorkspacesData inputs sup com (get_workspace_list root)).map (fun ws => ws.name) =
      get_workspace_list root) ∧
    (root = none → get_workspace_list root = []) ∧
    (∀ entries, root = some entries →
      List.Sorted (fun a b : String => a ≤ b) (get_workspace_list root) ∧
      (get_workspace_list root).Perm
        ((entries.filter (fun e => e.isDir && !strStartsWith e.name ".")).map
          (fun e => e.name))) := by
  refine ⟨?_, ?_, ?_, ?_⟩
  · rw [generate_markdown_lines_eq, mainWorkspacesData_eq_map]
    simp [List.map_map, Function.comp]
  · rw [mainWorkspacesData_eq_map, List.map_map]
    have hname : ((fun ws : WsData => ws.name) ∘ fun n => collectWorkspace (inputs n) sup com n) =
        fun n : String => n := by
      funext n
      rfl
    rw [hname]
    exact List.map_id' _
  · intro h
    subst h
    rfl
  · intro entries h
    subst h
    constructor
    · have hsorted : List.Sorted byName (List.insertionSort byName entries) :=
        List.sorted_insertionSort byName entries
      have hfil : List.Pairwise byName
          ((List.insertionSort byName entries).filter
            (fun e => e.isDir && !strStartsWith e.name ".")) :=
        List.Pairwise.sublist (List.filter_sublist _) hsorted
      unfold get_workspace_list
      exact List.pairwise_map.mpr hfil
    · unfold get_workspace_list
      exact ((List.perm_insertionSort byName entries).filter _).map _

/-- C1 witness: the missing-root clause and the sorted/permutation
clauses at a concrete directory listing. -/
theorem c1_one_row_per_workspace_witness :
    get_workspace_list none = [] ∧
    List.Sorted (fun a b : String => a ≤ b) (get_workspace_list (some demoEntries)) ∧
    (get_workspace_list (some demoEntries)).Perm
      ((demoEntries.filter (fun e => e.isDir && !strStartsWith e.name ".")).map
        (fun e => e.name)) := by
  refine ⟨(c1_one_row_per_workspace ⟨none, ""⟩ "main" none (fun _ => demoInput) [] []).2.2.1 rfl,
    ?_, ?_⟩
  · exact ((c1_one_row_per_workspace ⟨none, ""⟩ "main" (some demoEntries)
      (fun _ => demoInput) [] []).2.2.2 demoEntries rfl).1
  · exact ((c1_one_row_per_workspace ⟨none, ""⟩ "main" (some demoEntries)
      (fun _ => demoInput) [] []).2.2.2 demoEntries rfl).2
